import Mathlib

/-!
Shallow embedding of the Feriecenter Generator single-page application
(`App.tsx`): the upload/preview state, the generation lifecycle driven by
`handleGenerateVideo`, the rotating loading message, the reset handler and
the error-surfacing logic of the catch block. Machine behaviour that the
component merely consumes (the provider's start/poll/fetch calls and the
object URLs handed out by the browser) is passed in explicitly as data so
that every run of the component is a pure function of its inputs.
-/

namespace Feriecenter

/-- The fixed ordered list of rotating status messages (`loadingMessages`). -/
def loadingMessages : List String :=
  [ "Kontakter arkitekterne...",
    "Bestiller rutsjebaner i alle regnbuens farver...",
    "Puster badedyr op...",
    "Tegner byggeplaner...",
    "Hælder vand i swimmingpoolen...",
    "Sætter prikken over i'et..." ]

/-- A file-like input: only the declared MIME type (`file.type`) and an
identifying name matter to the component. -/
structure FileData where
  name : String
  mimeType : String
deriving DecidableEq, Repr

/-- Substring occurrence on character lists, modelling the JS
`String.prototype.includes` test used on error messages. -/
def listContainsSeq (pat l : List Char) : Bool :=
  match l with
  | [] => pat.isEmpty
  | _ :: t => pat.isPrefixOf l || listContainsSeq pat t

/-- `s.includes pat` of JS, on Lean strings. -/
def strContains (s pat : String) : Bool := listContainsSeq pat.data s.data

/-- `s.startsWith pat` of JS, on Lean strings. -/
def strStartsWith (s pat : String) : Bool := pat.data.isPrefixOf s.data

/-- The React state of `App`: `imageFile`, `imagePreview`, `isLoading`,
`loadingMessage`, `error`, `videoUrl`. -/
structure AppState where
  imageFile : Option FileData
  imagePreview : Option String
  isLoading : Bool
  loadingMessage : String
  error : Option String
  videoUrl : Option String
deriving DecidableEq, Repr

/-- The initial state of the component: all `useState` initial values. -/
def initialState : AppState :=
  { imageFile := none
    imagePreview := none
    isLoading := false
    loadingMessage := loadingMessages.getD 0 ""
    error := none
    videoUrl := none }

/-- Error text for a non-image file selection. -/
def invalidFileMsg : String := "Vælg venligst en gyldig billedfil."

/-- Error text when generation is requested with no image selected. -/
def noImageMsg : String := "Upload venligst et billede først."

/-- Error text when a completed operation carries no usable video URI. -/
def noVideoMsg : String :=
  "Videogenerering mislykkedes, eller der blev ikke returneret nogen video."

/-- Fallback error text for an exception without a message. -/
def genericErrorMsg : String := "En ukendt fejl opstod."

/-- The snippet whose occurrence triggers the credential-guidance rewrite. -/
def notFoundSnippet : String := "Requested entity was not found."

/-- The rewritten credential-guidance message. -/
def apiKeyHintMsg : String :=
  "Din API nøgle er muligvis ugyldig. Tjek dine environment variabler."

/-- Error text for a non-success download response. -/
def downloadFailedMsg (statusText : String) : String :=
  "Failed to download video: " ++ statusText

/-- `handleFileChange`: `file` is `event.target.files?.[0]` and `objectUrl`
is the fresh URL that `URL.createObjectURL(file)` would return. A missing
file leaves the state alone; an `image/`-typed file replaces the selection
and clears the error; any other file sets the error and clears the
selection. -/
def handleFileChange (s : AppState) (file : Option FileData) (objectUrl : String) :
    AppState :=
  match file with
  | none => s
  | some f =>
    if strStartsWith f.mimeType "image/" then
      { s with imageFile := some f, imagePreview := some objectUrl, error := none }
    else
      { s with error := some invalidFileMsg, imageFile := none, imagePreview := none }

/-- `resetState`: clears the selection, loading flag, error and video URL.
It does not touch `loadingMessage`. -/
def resetState (s : AppState) : AppState :=
  { s with imageFile := none
           imagePreview := none
           isLoading := false
           error := none
           videoUrl := none }

/-- One tick of the loading-message interval: the updater passed to
`setLoadingMessage` inside the `setInterval` callback. JS `indexOf`
returns `-1` for an absent element, hence the `Int` index. -/
def nextLoadingMessage (prev : String) : String :=
  let currentIndex : Int :=
    match loadingMessages.indexOf? prev with
    | some i => (i : Int)
    | none => -1
  let nextIndex : Int := (currentIndex + 1) % (loadingMessages.length : Int)
  loadingMessages.getD nextIndex.toNat ""

/-- A JS exception as seen by the catch block: its `message`, or `none`
when no message is present. -/
abbrev JsError := Option String

/-- The catch block's message selection: default the message when falsy
(absent or empty), then rewrite when the known snippet occurs. -/
def surfacedErrorMessage (m : JsError) : String :=
  let errorMessage :=
    match m with
    | none => genericErrorMsg
    | some msg => if msg = "" then genericErrorMsg else msg
  if strContains errorMessage notFoundSnippet then apiKeyHintMsg else errorMessage

/-- The provider's view of an operation handle: the `done` flag and
`response?.generatedVideos?.[0]?.video?.uri` (absent when the chain is
undefined). -/
structure Operation where
  done : Bool
  resultUri : Option String
deriving DecidableEq, Repr

/-- Outcome of a resolved `fetch` on the download link: `ok`, `statusText`
and the object URL that `URL.createObjectURL(blob)` would produce. -/
structure FetchResult where
  ok : Bool
  statusText : String
  blobUrl : String
deriving DecidableEq, Repr

/-- A scripted provider: the result of `generateVideos`, the successive
results of `getVideosOperation`, and the behaviour of `fetch` on a
download URI. `Except.error e` is a rejected call throwing `e`. -/
structure Provider where
  start : Except JsError Operation
  polls : List (Except JsError Operation)
  fetch : String → Except JsError FetchResult

/-- Network calls issued by a generation attempt. -/
inductive NetCall where
  | start : NetCall
  | poll : NetCall
  | download : NetCall
deriving DecidableEq, Repr

/-- The `while (!operation.done)` polling loop: consume scripted poll
responses until the operation is done or a poll rejects, counting the
polls issued. `none` when the script runs out while not done (the loop
would keep polling). -/
def pollLoop (op : Operation) (polls : List (Except JsError Operation)) :
    Option (Except JsError Operation × Nat) :=
  if op.done then some (Except.ok op, 0)
  else
    match polls with
    | [] => none
    | p :: rest =>
      match p with
      | Except.error e => some (Except.error e, 1)
      | Except.ok op2 =>
        match pollLoop op2 rest with
        | none => none
        | some (r, n) => some (r, n + 1)

/-- The catch plus finally blocks applied to the in-flight state. -/
def afterCatch (s1 : AppState) (e : JsError) : AppState :=
  { s1 with error := some (surfacedErrorMessage e), isLoading := false }

/-- The tail of the try block once the operation is done: check the result
URI for truthiness, download, and either store the video URL or throw; the
catch and finally blocks are folded in. -/
def finishOperation (s1 : AppState) (prov : Provider) (opDone : Operation)
    (calls : List NetCall) : AppState × List NetCall :=
  match opDone.resultUri with
  | some uri =>
    if uri = "" then
      (afterCatch s1 (some noVideoMsg), calls)
    else
      match prov.fetch uri with
      | Except.error e => (afterCatch s1 e, calls ++ [NetCall.download])
      | Except.ok r =>
        if r.ok then
          ({ s1 with videoUrl := some r.blobUrl, isLoading := false },
            calls ++ [NetCall.download])
        else
          (afterCatch s1 (some (downloadFailedMsg r.statusText)),
            calls ++ [NetCall.download])
  | none => (afterCatch s1 (some noVideoMsg), calls)

/-- `handleGenerateVideo` against a scripted provider: the final state and
the network calls issued, or `none` when the poll script is exhausted (the
real loop would still be polling). -/
def handleGenerateVideo (s : AppState) (prov : Provider) :
    Option (AppState × List NetCall) :=
  match s.imageFile with
  | none => some ({ s with error := some noImageMsg }, [])
  | some _ =>
    let s1 : AppState :=
      { s with isLoading := true
               videoUrl := none
               error := none
               loadingMessage := loadingMessages.getD 0 "" }
    match prov.start with
    | Except.error e => some (afterCatch s1 e, [NetCall.start])
    | Except.ok op0 =>
      match pollLoop op0 prov.polls with
      | none => none
      | some (Except.error e, n) =>
          some (afterCatch s1 e, NetCall.start :: List.replicate n NetCall.poll)
      | some (Except.ok opDone, n) =>
          some (finishOperation s1 prov opDone
            (NetCall.start :: List.replicate n NetCall.poll))

/-- The upload/preview manager with object-URL resource tracking:
`allocatedUrls` records every `URL.createObjectURL` result; `revokedUrls`
records `URL.revokeObjectURL` calls — the component makes none. -/
structure ManagerRes where
  st : AppState
  allocatedUrls : List String
  revokedUrls : List String
deriving DecidableEq, Repr

/-- A freshly initialized manager: initial state, nothing allocated. -/
def freshManager : ManagerRes :=
  { st := initialState, allocatedUrls := [], revokedUrls := [] }

/-- `handleFileChange` with resource tracking: a valid image calls
`URL.createObjectURL`, recording the allocated preview URL; no path ever
revokes a URL. -/
def selectFileRes (m : ManagerRes) (file : Option FileData) (freshUrl : String) :
    ManagerRes :=
  match file with
  | none => m
  | some f =>
    if strStartsWith f.mimeType "image/" then
      { st := { m.st with imageFile := some f, imagePreview := some freshUrl,
                          error := none }
        allocatedUrls := freshUrl :: m.allocatedUrls
        revokedUrls := m.revokedUrls }
    else
      { m with st := { m.st with error := some invalidFileMsg,
                                 imageFile := none, imagePreview := none } }

/-- `resetState` with resource tracking: the state is cleared; no URL is
revoked (the source has no `revokeObjectURL` call). -/
def resetRes (m : ManagerRes) : ManagerRes := { m with st := resetState m.st }

/-- Object URLs allocated but never revoked. -/
def leakedUrls (m : ManagerRes) : List String :=
  m.allocatedUrls.filter (fun u => !(m.revokedUrls.contains u))

/-- A selection and its preview are present or absent together. -/
def selectionInvariant (s : AppState) : Prop :=
  s.imageFile = none ↔ s.imagePreview = none

instance (s : AppState) : Decidable (selectionInvariant s) := by
  unfold selectionInvariant; infer_instance

/-- Concrete valid image file used in witnesses. -/
def fileHouse : FileData := { name := "house.png", mimeType := "image/png" }

/-- Concrete non-image file used in counterexamples. -/
def fileNote : FileData := { name := "notes.txt", mimeType := "text/plain" }

/-- A state with an image selected, as after a valid `handleFileChange`. -/
def selectedState : AppState :=
  { initialState with imageFile := some fileHouse, imagePreview := some "blob:h" }

/-- A provider whose start call rejects with a message-less error. -/
def stubProvider : Provider :=
  { start := Except.error none
    polls := []
    fetch := fun _ => Except.error none }

/-- A provider scripted to stay not-done for two polls, finish on the
third with a result URI, and serve the download successfully. -/
def scriptedProvider : Provider :=
  { start := Except.ok { done := false, resultUri := none }
    polls :=
      [ Except.ok { done := false, resultUri := none },
        Except.ok { done := false, resultUri := none },
        Except.ok { done := true, resultUri := some "https:video-uri" } ]
    fetch := fun u =>
      if u = "https:video-uri" then
        Except.ok { ok := true, statusText := "OK", blobUrl := "blob:video" }
      else Except.error none }

/-- A provider whose operation is already done at start, with no URI. -/
def doneNoUriProvider : Provider :=
  { start := Except.ok { done := true, resultUri := none }
    polls := []
    fetch := fun _ => Except.error none }

/-- The state reached by a valid selection from the initial state. -/
def priorSelected : AppState := handleFileChange initialState (some fileHouse) "blob:prior"

/-- A mid-flight (Polling) state whose rotating message has advanced one tick. -/
def pollingMidState : AppState :=
  { imageFile := some fileHouse
    imagePreview := some "blob:h"
    isLoading := true
    loadingMessage := loadingMessages.getD 1 ""
    error := none
    videoUrl := none }

/-! Helper lemmas shared by the claim theorems. -/

theorem surfaced_noVideoMsg : surfacedErrorMessage (some noVideoMsg) = noVideoMsg := by
  decide

theorem finishOperation_fst_fields (s1 : AppState) (prov : Provider)
    (opDone : Operation) (calls : List NetCall) :
    (finishOperation s1 prov opDone calls).1.imageFile = s1.imageFile ∧
    (finishOperation s1 prov opDone calls).1.imagePreview = s1.imagePreview ∧
    (finishOperation s1 prov opDone calls).1.isLoading = false := by
  unfold finishOperation
  cases hu : opDone.resultUri with
  | none => simp [afterCatch]
  | some uri =>
    by_cases h : uri = ""
    · simp [h, afterCatch]
    · cases hf : prov.fetch uri with
      | error e => simp [h, hf, afterCatch]
      | ok r =>
        cases hok : r.ok <;> simp [h, hf, hok, afterCatch]

theorem finishOperation_run_fields (s1 : AppState) (prov : Provider)
    (opDone : Operation) (calls0 : List NetCall) (s2 : AppState) (calls : List NetCall)
    (h : finishOperation s1 prov opDone calls0 = (s2, calls)) :
    s2.imageFile = s1.imageFile ∧ s2.imagePreview = s1.imagePreview ∧
    s2.isLoading = false := by
  have h2 : s2 = (finishOperation s1 prov opDone calls0).1 := by rw [h]
  rw [h2]
  exact finishOperation_fst_fields s1 prov opDone calls0

theorem handleGenerateVideo_run_fields (s : AppState) (prov : Provider)
    (s2 : AppState) (calls : List NetCall)
    (h : handleGenerateVideo s prov = some (s2, calls)) :
    s2.imageFile = s.imageFile ∧ s2.imagePreview = s.imagePreview ∧
    (s.imageFile = none → s2.isLoading = s.isLoading) ∧
    (s.imageFile ≠ none → s2.isLoading = false) := by
  cases hImg : s.imageFile with
  | none =>
    simp only [handleGenerateVideo, hImg, Option.some.injEq, Prod.mk.injEq] at h
    obtain ⟨h1, h2⟩ := h
    subst h1
    simp [hImg]
  | some f =>
    simp only [handleGenerateVideo, hImg] at h
    cases hStart : prov.start with
    | error e =>
      simp only [hStart, Option.some.injEq, Prod.mk.injEq] at h
      obtain ⟨h1, h2⟩ := h
      subst h1
      simp [afterCatch, hImg]
    | ok op0 =>
      simp only [hStart] at h
      cases hPL : pollLoop op0 prov.polls with
      | none => simp [hPL] at h
      | some pr =>
        obtain ⟨r, n⟩ := pr
        cases r with
        | error e =>
          simp only [hPL, Option.some.injEq, Prod.mk.injEq] at h
          obtain ⟨h1, h2⟩ := h
          subst h1
          simp [afterCatch, hImg]
        | ok opDone =>
          simp only [hPL, Option.some.injEq] at h
          obtain ⟨hA, hB, hC⟩ := finishOperation_run_fields _ prov opDone _ s2 calls h
          refine ⟨?_, by simpa using hB, ?_, fun _ => hC⟩
          · simpa using hA
          · intro h0
            exact absurd h0 (by simp)

/-! Claim theorems. -/

/-- C1: for a scripted provider whose start yields a not-done operation and
whose successive poll responses are not-done, not-done, then done with a
result URI, a generation attempt from a state with a selected image issues
exactly three poll calls (the loop re-queries until the done flag is true)
and, the download succeeding, ends Ready: loading cleared, error cleared,
and the fetched asset's object URL stored. -/
theorem c1_three_polls_then_ready
    (s : AppState) (f : FileData) (prov : Provider) (u0 u1 u2 : Option String)
    (uri blob statusText : String)
    (hImg : s.imageFile = some f)
    (hStart : prov.start = Except.ok { done := false, resultUri := u0 })
    (hPolls : prov.polls =
      [ Except.ok { done := false, resultUri := u1 },
        Except.ok { done := false, resultUri := u2 },
        Except.ok { done := true, resultUri := some uri } ])
    (hUri : uri ≠ "")
    (hFetch : prov.fetch uri =
      Except.ok { ok := true, statusText := statusText, blobUrl := blob }) :
    handleGenerateVideo s prov =
      some ({ s with isLoading := false, error := none, videoUrl := some blob,
                     loadingMessage := loadingMessages.getD 0 "" },
        [NetCall.start, NetCall.poll, NetCall.poll, NetCall.poll, NetCall.download]) ∧
    List.count NetCall.poll
      [NetCall.start, NetCall.poll, NetCall.poll, NetCall.poll, NetCall.download] = 3 := by
  refine ⟨?_, by decide⟩
  simp [handleGenerateVideo, hImg, hStart, hPolls, pollLoop, finishOperation,
    afterCatch, hFetch, hUri, List.replicate]

/-- C1 witness: the scripted provider run from a selected state. -/
theorem c1_witness :
    selectedState.imageFile = some fileHouse ∧
    handleGenerateVideo selectedState scriptedProvider =
      some ({ selectedState with isLoading := false, error := none,
                                 videoUrl := some "blob:video",
                                 loadingMessage := loadingMessages.getD 0 "" },
        [NetCall.start, NetCall.poll, NetCall.poll, NetCall.poll, NetCall.download]) :=
  ⟨rfl,
    (c1_three_polls_then_ready selectedState fileHouse scriptedProvider
      none none none "https:video-uri" "blob:video" "OK"
      rfl rfl rfl (by decide) rfl).1⟩

/-- C2 counterexample: with a prior valid selection in place, selecting a
non-image file does not leave the prior selection unchanged — the stored
image file and preview are cleared. -/
theorem c2_counterexample :
    ¬ ((handleFileChange priorSelected (some fileNote) "blob:x").imageFile =
          priorSelected.imageFile ∧
       (handleFileChange priorSelected (some fileNote) "blob:x").imagePreview =
          priorSelected.imagePreview) := by
  decide

/-- C2 amended: for every file whose declared MIME type does not start with
`image/`, selectFile sets the user-visible invalid-file error and clears
the selection — the stored image file and its preview are reset to empty
rather than left unchanged. -/
theorem c2_invalid_file_clears_selection
    (s : AppState) (f : FileData) (url : String)
    (h : strStartsWith f.mimeType "image/" = false) :
    handleFileChange s (some f) url =
      { s with error := some invalidFileMsg, imageFile := none, imagePreview := none } := by
  simp [handleFileChange, h]

/-- C2 witness: a text file is rejected and clears the (empty) selection. -/
theorem c2_witness :
    strStartsWith fileNote.mimeType "image/" = false ∧
    handleFileChange initialState (some fileNote) "blob:x" =
      { initialState with error := some invalidFileMsg, imageFile := none,
                          imagePreview := none } :=
  ⟨by decide, c2_invalid_file_clears_selection initialState fileNote "blob:x" (by decide)⟩

/-- C3 counterexample: from a mid-flight state whose rotating message has
advanced, reset does not bring the message cursor back to its initial
value. -/
theorem c3_counterexample :
    ¬ ((resetState pollingMidState).loadingMessage = initialState.loadingMessage) := by
  decide

/-- C3 amended: from any state, reset returns the controller to
AwaitingInput — selection, loading flag, error and result all cleared —
but leaves the rotating-message cursor unchanged (it is re-seeded only at
the start of the next generation attempt). -/
theorem c3_reset_clears_all_but_message (s : AppState) :
    (resetState s).imageFile = none ∧ (resetState s).imagePreview = none ∧
    (resetState s).isLoading = false ∧ (resetState s).error = none ∧
    (resetState s).videoUrl = none ∧ (resetState s).loadingMessage = s.loadingMessage := by
  simp [resetState]

/-- C4: the catch block surfaces exactly the computed message; a message
containing the known snippet is rewritten to the credential-guidance text,
any other non-empty message passes through verbatim, and a missing message
becomes the fixed generic text. -/
theorem c4_error_message_surfacing :
    (∀ (s1 : AppState) (e : JsError),
      (afterCatch s1 e).error = some (surfacedErrorMessage e)) ∧
    (∀ m : String, strContains m notFoundSnippet = true →
      surfacedErrorMessage (some m) = apiKeyHintMsg) ∧
    (∀ m : String, m ≠ "" → strContains m notFoundSnippet = false →
      surfacedErrorMessage (some m) = m) ∧
    surfacedErrorMessage none = genericErrorMsg := by
  refine ⟨fun s1 e => by simp [afterCatch], ?_, ?_, by decide⟩
  · intro m hm
    have hne : m ≠ "" := by
      intro h0
      rw [h0] at hm
      exact absurd hm (by decide)
    simp [surfacedErrorMessage, hne, hm]
  · intro m hne hnc
    simp [surfacedErrorMessage, hne, hnc]

/-- C4 witness: a message containing the snippet is rewritten, an ordinary
message passes verbatim, a missing message gets the generic text. -/
theorem c4_witness :
    strContains "Error: Requested entity was not found." notFoundSnippet = true ∧
    surfacedErrorMessage (some "Error: Requested entity was not found.") = apiKeyHintMsg ∧
    surfacedErrorMessage (some "boom") = "boom" ∧
    surfacedErrorMessage none = genericErrorMsg :=
  ⟨by decide,
    c4_error_message_surfacing.2.1 "Error: Requested entity was not found." (by decide),
    c4_error_message_surfacing.2.2.1 "boom" (by decide) (by decide),
    c4_error_message_surfacing.2.2.2⟩

/-- C5: when the polling loop ends with a done operation that carries no
non-empty result URI, the attempt ends Failed with the fixed unknown-result
message and no video reference: the final state's videoUrl is none, so
Ready is never reached. -/
theorem c5_unknown_result_fails
    (s : AppState) (f : FileData) (prov : Provider) (op0 opDone : Operation) (n : Nat)
    (hImg : s.imageFile = some f)
    (hStart : prov.start = Except.ok op0)
    (hPoll : pollLoop op0 prov.polls = some (Except.ok opDone, n))
    (hUri : opDone.resultUri = none ∨ opDone.resultUri = some "") :
    handleGenerateVideo s prov =
      some ({ s with isLoading := false, videoUrl := none,
                     error := some noVideoMsg,
                     loadingMessage := loadingMessages.getD 0 "" },
        NetCall.start :: List.replicate n NetCall.poll) := by
  rcases hUri with h | h <;>
    simp [handleGenerateVideo, hImg, hStart, hPoll, finishOperation, h,
      afterCatch, surfaced_noVideoMsg]

/-- C5 witness: a provider already done at start with no URI. -/
theorem c5_witness :
    selectedState.imageFile = some fileHouse ∧
    handleGenerateVideo selectedState doneNoUriProvider =
      some ({ selectedState with isLoading := false, videoUrl := none,
                                 error := some noVideoMsg,
                                 loadingMessage := loadingMessages.getD 0 "" },
        NetCall.start :: List.replicate 0 NetCall.poll) :=
  ⟨rfl,
    c5_unknown_result_fails selectedState fileHouse doneNoUriProvider
      { done := true, resultUri := none } { done := true, resultUri := none } 0
      rfl rfl rfl (Or.inl rfl)⟩

/-- C6: a generation attempt with no selected image only sets the
no-image-selected error; the rest of the state is unchanged and the list of
network calls issued is empty — no start, poll or download occurs. -/
theorem c6_no_image_no_network
    (s : AppState) (prov : Provider) (h : s.imageFile = none) :
    handleGenerateVideo s prov = some ({ s with error := some noImageMsg }, []) := by
  simp [handleGenerateVideo, h]

/-- C6 witness: the initial state has no image and the attempt issues no
network call. -/
theorem c6_witness :
    initialState.imageFile = none ∧
    handleGenerateVideo initialState stubProvider =
      some ({ initialState with error := some noImageMsg }, []) :=
  ⟨rfl, c6_no_image_no_network initialState stubProvider rfl⟩

/-- C7 counterexample: after a valid selection followed by reset, the
object URL allocated for the preview was never revoked — the leaked-URL
list is non-empty, so the preview reference is not released. -/
theorem c7_counterexample :
    leakedUrls (resetRes (selectFileRes freshManager (some fileHouse) "blob:prev")) ≠ [] := by
  decide

/-- C7 amended: for every valid image file, selectFile followed by reset
leaves the manager state identical to the freshly initialized state, and
reset is idempotent; however the allocated preview object URL is never
revoked and remains allocated (leaked) after reset. -/
theorem c7_reset_clean_state_but_leaked_url
    (f : FileData) (url : String) (h : strStartsWith f.mimeType "image/" = true) :
    (resetRes (selectFileRes freshManager (some f) url)).st = initialState ∧
    leakedUrls (resetRes (selectFileRes freshManager (some f) url)) = [url] ∧
    (∀ m : ManagerRes, resetRes (resetRes m) = resetRes m) := by
  refine ⟨?_, ?_, fun m => rfl⟩
  · simp [selectFileRes, h, resetRes, resetState, freshManager, initialState]
  · simp [selectFileRes, h, resetRes, leakedUrls, freshManager, List.filter]

/-- C7 witness: a concrete valid selection and reset. -/
theorem c7_witness :
    strStartsWith fileHouse.mimeType "image/" = true ∧
    (resetRes (selectFileRes freshManager (some fileHouse) "blob:w")).st = initialState ∧
    leakedUrls (resetRes (selectFileRes freshManager (some fileHouse) "blob:w")) = ["blob:w"] :=
  ⟨by decide,
    (c7_reset_clean_state_but_leaked_url fileHouse "blob:w" (by decide)).1,
    (c7_reset_clean_state_but_leaked_url fileHouse "blob:w" (by decide)).2.1⟩

/-- C8: each tick of the loading-message interval advances the rotating
message through the fixed list in order, wrapping from the last entry back
to the first; after exactly as many ticks as the list has entries, the
message starting at the first entry is the first entry again. -/
theorem c8_rotating_messages :
    (∀ i : Fin loadingMessages.length,
      nextLoadingMessage (loadingMessages.getD (i : Nat) "") =
        loadingMessages.getD (((i : Nat) + 1) % loadingMessages.length) "") ∧
    nextLoadingMessage^[loadingMessages.length] (loadingMessages.getD 0 "") =
      loadingMessages.getD 0 "" := by
  decide

/-- C9: the selection invariant — the stored image file and the preview
reference are present or absent together — holds initially and is
preserved by every operation: file selection (valid, invalid or absent
file), reset, and any finished generation attempt. -/
theorem c9_selection_invariant :
    selectionInvariant initialState ∧
    (∀ (s : AppState) (file : Option FileData) (url : String),
      selectionInvariant s → selectionInvariant (handleFileChange s file url)) ∧
    (∀ s : AppState, selectionInvariant (resetState s)) ∧
    (∀ (s : AppState) (prov : Provider) (s2 : AppState) (calls : List NetCall),
      selectionInvariant s → handleGenerateVideo s prov = some (s2, calls) →
      selectionInvariant s2) := by
  refine ⟨by decide, ?_, ?_, ?_⟩
  · intro s file url hs
    cases file with
    | none => simpa [handleFileChange]
    | some f =>
      cases h : strStartsWith f.mimeType "image/" <;>
        simp [handleFileChange, h, selectionInvariant]
  · intro s
    simp [resetState, selectionInvariant]
  · intro s prov s2 calls hs h
    obtain ⟨h1, h2, _, _⟩ := handleGenerateVideo_run_fields s prov s2 calls h
    unfold selectionInvariant at hs ⊢
    rw [h1, h2]
    exact hs

/-- C9 witness: the invariant at concrete states and operations. -/
theorem c9_witness :
    selectionInvariant initialState ∧
    selectionInvariant (handleFileChange initialState (some fileHouse) "blob:a") ∧
    selectionInvariant (resetState selectedState) ∧
    selectionInvariant { initialState with error := some noImageMsg } :=
  ⟨c9_selection_invariant.1,
    c9_selection_invariant.2.1 initialState (some fileHouse) "blob:a" (by decide),
    c9_selection_invariant.2.2.1 selectedState,
    c9_selection_invariant.2.2.2 initialState stubProvider
      { initialState with error := some noImageMsg } [] (by decide) (by decide)⟩

/-- C10: whenever a generation attempt from a state with a selected image
finishes — with any scripted provider outcome: success, done without a
result URI, failed download, or a rejected provider call — the final
state's loading flag is false. -/
theorem c10_loading_cleared_after_attempt
    (s : AppState) (f : FileData) (prov : Provider) (s2 : AppState) (calls : List NetCall)
    (hImg : s.imageFile = some f)
    (h : handleGenerateVideo s prov = some (s2, calls)) :
    s2.isLoading = false := by
  obtain ⟨_, _, _, h4⟩ := handleGenerateVideo_run_fields s prov s2 calls h
  exact h4 (by simp [hImg])

/-- C10 witness: a finished attempt (rejected start call) has the loading
flag cleared. -/
theorem c10_witness :
    ({ selectedState with isLoading := false, videoUrl := none,
                          error := some genericErrorMsg,
                          loadingMessage := loadingMessages.getD 0 "" } : AppState).isLoading
      = false :=
  c10_loading_cleared_after_attempt selectedState fileHouse stubProvider
    { selectedState with isLoading := false, videoUrl := none,
                         error := some genericErrorMsg,
                         loadingMessage := loadingMessages.getD 0 "" }
    [NetCall.start] (by decide) (by decide)

end Feriecenter
